import Mathlib

/-!
# attendance-sys: the browser helpers of `frontend/static/js/common.js`

A shallow embedding of `common.js` and the properties its specification states.

Modelling conventions.

* The module-level variables (`scanningInterval`, `discoveredBeacons`,
  `connectedDevice`, `lastError`) and the parts of the browser the code touches
  (`localStorage`, `window.location.href`, the three DOM elements of the status
  presenter, the table of running interval timers) are the fields of `World`.
* Every call the code makes to the outside (`alert`, `fetch`, `setInterval`,
  `clearInterval`, `requestDevice`, `gatt.connect`, `gatt.disconnect`,
  `addEventListener`) is appended to `World.trace`.  Entering `markAttendance`
  is recorded as well, so that calls can be counted.
* What the outside answers (the HTTP response, the result of a GATT read, the
  result of the device chooser) is an argument of the function that awaits it.
* A function body runs to completion before the next one starts: an `async`
  function is a state transformer that ends normally or by throwing, which
  stands for its promise being fulfilled or rejected.
* `debugLog` only writes to the console and is left out.
* The status presenter dereferences its three elements unconditionally, so the
  page is taken to provide them; `alert` always returns.
* The source calls `connectedDevice.gatt.getPrimaryService` and
  `connectedDevice.gatt.disconnect` on the object that `device.gatt.connect()`
  resolved to.  How those calls end is not fixed by the source: what the three
  awaited reads settle to is an argument of `scanForBeacons`, and how the call
  of `disconnect` ends is an argument of `stopBluetoothScan`.  On an object
  without a `gatt` property, such as the GATT server, each of them ends in the
  `TypeError` of reading a property of `undefined`.
-/

namespace AttendanceSys

/-! ## JavaScript values -/

/-- JavaScript values as far as the code inspects them.  Numbers are integers:
only their truthiness matters below. -/
inductive JsVal where
  | undefined
  | null
  | bool (b : Bool)
  | num (n : Int)
  | str (s : String)
  | arr (items : List JsVal)
  | obj (props : List (String × JsVal))

/-- An object, written as its property definitions in order.  As in an object
literal, a later definition of a key overrides an earlier one. -/
abbrev Obj := List (String × JsVal)

/-- Own property lookup: the last definition of the key `k`. -/
def Obj.get? : Obj → String → Option JsVal
  | [], _ => none
  | (k', v) :: rest, k =>
    match Obj.get? rest k with
    | some v' => some v'
    | none => if k' = k then some v else none

/-- Object spread of two objects, `{...a, ...b}`: the definitions of `a` followed by those of `b`. -/
def spread (a b : Obj) : Obj := a ++ b

/-- JavaScript truthiness (`ToBoolean`). -/
def JsVal.truthy : JsVal → Bool
  | .undefined => false
  | .null => false
  | .bool b => b
  | .num n => decide (n ≠ 0)
  | .str s => decide (s ≠ "")
  | .arr _ => true
  | .obj _ => true

/-- The error object of a `throw`: only its `message` is ever read. -/
structure JsError where
  message : String
deriving DecidableEq

/-- What the JavaScript engine contributes and the source does not fix. -/
structure Platform where
  /-- The `ToString` conversion of a value that is not a string. -/
  toStr : JsVal → String
  /-- The text `JSON.stringify` produces. -/
  stringify : JsVal → String
  /-- The message of the `TypeError` raised by reading property `k` of `null` or `undefined`. -/
  nullishRead : String → String

/-- The `ToString` conversion: a string is itself. -/
def JsVal.toJsString (P : Platform) : JsVal → String
  | .str s => s
  | v => P.toStr v

/-- The method `s.includes(sub)` of strings. -/
def includes (s sub : String) : Bool :=
  s.data.tails.any (fun t => sub.data.isPrefixOf t)

/-- The method `s.startsWith(p)` of strings. -/
def startsWith (s p : String) : Bool := p.data.isPrefixOf s.data

/-- Splitting a list of characters at every occurrence of `sep`. -/
def splitChars (sep : Char) : List Char → List (List Char)
  | [] => [[]]
  | c :: cs =>
    if c = sep then [] :: splitChars sep cs
    else
      match splitChars sep cs with
      | [] => [[c]]
      | w :: ws => (c :: w) :: ws

/-- The method `s.split(sep)` of strings for a one-character separator. -/
def split (s : String) (sep : Char) : List String :=
  (splitChars sep s.data).map String.mk

/-! ## The world -/

/-- The handle `setInterval` returns: a non-zero number in a browser, an object
under Node.  Either way it is truthy, so `if (scanningInterval)` tests for `null`. -/
structure TimerHandle where
  id : Nat
deriving DecidableEq

/-- A Bluetooth peripheral as the device chooser returns it. -/
structure BluetoothDevice where
  id : Nat
  name : Option String
deriving DecidableEq

/-- The object `device.gatt.connect()` resolves to, kept in `connectedDevice`. -/
structure GattHandle where
  id : Nat
deriving DecidableEq

/-- The three DOM elements `updateScanStatus` writes to. -/
structure Presenter where
  startBtnDisplay : String
  stopBtnDisplay : String
  statusHtml : String
deriving DecidableEq

/-- Calls that leave the module, in the order they are made. -/
inductive Effect where
  | alert (message : String)
  | fetch (url : String) (init : Obj)
  | requestDevice
  | connect (device : BluetoothDevice)
  | setInterval (handle : TimerHandle) (ms : Nat)
  | clearInterval (handle : TimerHandle)
  | disconnect (server : GattHandle)
  | addDisconnectListener (device : BluetoothDevice)
  | markAttendance (beaconId : String)

/-- Module state and browser state. -/
structure World where
  scanningInterval : Option TimerHandle
  discoveredBeacons : List String
  connectedDevice : Option GattHandle
  lastError : Option JsError
  localStorage : List (String × String)
  location : String
  presenter : Presenter
  timers : List TimerHandle
  nextTimer : Nat
  trace : List Effect

/-- How a function body ends. -/
inductive Completion (α : Type) where
  | normal (value : α)
  | thrown (error : JsError)

/-- A JavaScript computation: it changes the world and ends normally or by throwing. -/
def Js (α : Type) : Type := World → Completion α × World

/-- The computation that returns `a`. -/
def Js.pure {α : Type} (a : α) : Js α := fun w => (.normal a, w)

/-- Sequencing: a throw skips the rest. -/
def Js.bind {α β : Type} (m : Js α) (f : α → Js β) : Js β := fun w =>
  match m w with
  | (.normal a, w') => f a w'
  | (.thrown e, w') => (.thrown e, w')

instance : Monad Js where
  pure := Js.pure
  bind := Js.bind

/-- The statement `throw e`. -/
def raise {α : Type} (e : JsError) : Js α := fun w => (.thrown e, w)

/-- The statement `try { body } catch (error) { handler }`. -/
def tryCatch {α : Type} (body : Js α) (handler : JsError → Js α) : Js α := fun w =>
  match body w with
  | (.normal a, w') => (.normal a, w')
  | (.thrown e, w') => handler e w'

/-- Appending one call to the trace. -/
def emit (e : Effect) : Js Unit := fun w => (.normal (), { w with trace := w.trace ++ [e] })

/-- The call `alert(message)`. -/
def alert (message : String) : Js Unit := emit (.alert message)

/-! ## Authentication and the request client -/

/-- The constant `API_BASE_URL`. -/
def API_BASE_URL : String := "http://localhost:8000"

/-- The value `checkAuth` returns: `false`, or the token. -/
inductive AuthResult where
  | denied
  | token (t : String)
deriving DecidableEq

/-- The text of an `AuthResult` inside a template literal. -/
def AuthResult.text : AuthResult → String
  | .denied => "false"
  | .token t => t

/-- The call `localStorage.getItem(key)`: `null` when the key is not stored. -/
def getItem (storage : List (String × String)) (key : String) : Option String :=
  storage.lookup key

/-- The function `checkAuth`. -/
def checkAuth : Js AuthResult := fun w =>
  match getItem w.localStorage "token" with
  | none => (.normal .denied, { w with location := "login.html" })
  | some token =>
    if token = "" then (.normal .denied, { w with location := "login.html" })
    else (.normal (.token token), w)

/-- The function `logout`. -/
def logout : Js Unit := fun w =>
  (.normal (),
    { w with
      localStorage := w.localStorage.filter (fun kv => kv.1 ≠ "token"),
      location := "login.html" })

/-- A response of `fetch`: its `ok` flag and what `response.json()` settles to. -/
structure Response where
  ok : Bool
  json : Except JsError JsVal

/-- How the network answers one `fetch`. -/
inductive FetchOutcome where
  | rejected (error : JsError)
  | responded (response : Response)

/-- The call `fetch(url, init)`, answered by `net`. -/
def fetch (url : String) (init : Obj) (net : FetchOutcome) : Js Response := do
  emit (.fetch url init)
  match net with
  | .rejected e => raise e
  | .responded r => pure r

/-- The call `response.json()`. -/
def Response.readJson (r : Response) : Js JsVal :=
  match r.json with
  | .error e => raise e
  | .ok v => pure v

/-- Reading the property `detail` of a parsed JSON value. -/
def readDetail (P : Platform) : JsVal → Js JsVal
  | .undefined => raise ⟨P.nullishRead "detail"⟩
  | .null => raise ⟨P.nullishRead "detail"⟩
  | .obj props => pure ((Obj.get? props "detail").getD .undefined)
  | _ => pure .undefined

/-- The object `defaultOptions` of `apiRequest`. -/
def defaultOptions (token : AuthResult) : Obj :=
  [("headers", .obj [("Authorization", .str ("Bearer " ++ token.text)),
                     ("Content-Type", .str "application/json")])]

/-- The function `apiRequest`. -/
def apiRequest (P : Platform) (endpoint : String) (options : Obj) (net : FetchOutcome) :
    Js JsVal := do
  let token ← checkAuth
  tryCatch
    (do
      let response ← fetch (API_BASE_URL ++ endpoint) (spread (defaultOptions token) options) net
      if !response.ok then
        let error ← response.readJson
        let detail ← readDetail P error
        raise ⟨if detail.truthy then detail.toJsString P else "API request failed"⟩
      else
        let data ← response.readJson
        pure data)
    (fun error => do
      alert error.message
      raise error)

/-- The function `markAttendance`. -/
def markAttendance (P : Platform) (beaconId : String) (net : FetchOutcome) : Js Unit := do
  emit (.markAttendance beaconId)
  tryCatch
    (do
      let _ ← apiRequest P "/bluetooth/mark-attendance"
        [("method", .str "POST"),
         ("body", .str (P.stringify (.obj [("beacon_id", .str beaconId)])))] net
      alert "Attendance marked successfully!")
    (fun error => alert ("Failed to mark attendance: " ++ error.message))

/-! ## The beacon scanner -/

/-- Reading the current world. -/
def readWorld : Js World := fun w => (.normal w, w)

/-- Assigning to module or browser state. -/
def modifyWorld (f : World → World) : Js Unit := fun w => (.normal (), f w)

/-- Awaiting a promise that the platform has settled. -/
def await {α : Type} (settled : Except JsError α) : Js α :=
  match settled with
  | .error e => raise e
  | .ok a => pure a

/-- The call `setInterval(scanForBeacons, ms)`: a fresh handle, now running. -/
def setInterval (ms : Nat) : Js TimerHandle := fun w =>
  let h : TimerHandle := ⟨w.nextTimer⟩
  (.normal h,
    { w with
      timers := w.timers ++ [h],
      nextTimer := w.nextTimer + 1,
      trace := w.trace ++ [.setInterval h ms] })

/-- The call `clearInterval(h)`: the timer `h` no longer runs. -/
def clearInterval (h : TimerHandle) : Js Unit := fun w =>
  (.normal (),
    { w with
      timers := w.timers.filter (fun t => t ≠ h),
      trace := w.trace ++ [.clearInterval h] })

/-- The function `updateScanStatus`; `message` is `none` when the argument is omitted. -/
def updateScanStatus (status : String) (message : Option String) : Js Unit :=
  modifyWorld fun w =>
    if status = "connected" then
      { w with
        presenter :=
          { startBtnDisplay := "none",
            stopBtnDisplay := "block",
            statusHtml :=
              "\n            <div class=\"status-active\">\n                <p>Connected to device: "
                ++ (match message with
                    | some m => if m = "" then "Unknown Device" else m
                    | none => "Unknown Device")
                ++ "</p>\n                <p>Scanning for attendance beacons...</p>\n            </div>\n        " } }
    else if status = "error" then
      { w with
        presenter :=
          { startBtnDisplay := "block",
            stopBtnDisplay := "none",
            statusHtml :=
              "\n            <div class=\"status-error\">\n                <p>Error: "
                ++ message.getD "undefined"
                ++ "</p>\n                <p>Please try again</p>\n            </div>\n        " } }
    else
      { w with
        presenter := { startBtnDisplay := "block", stopBtnDisplay := "none", statusHtml := "" } }

/-- The presenter after `updateScanStatus('stopped')`. -/
def stoppedPresenter : Presenter :=
  { startBtnDisplay := "block", stopBtnDisplay := "none", statusHtml := "" }

/-- The function `stopBluetoothScan`.  `disconnect` is how the call
`connectedDevice.gatt.disconnect()` ends: it returns, or it throws (the
`TypeError` of reading `disconnect` of `undefined` when the stored object has no
`gatt` property).  A throw leaves the statements after the call unexecuted. -/
def stopBluetoothScan (disconnect : Except JsError Unit) : Js Unit := do
  let w ← readWorld
  match w.scanningInterval with
  | some h =>
    clearInterval h
    modifyWorld fun w => { w with scanningInterval := none }
  | none => pure ()
  let w ← readWorld
  match w.connectedDevice with
  | some server =>
    await disconnect
    emit (.disconnect server)
    modifyWorld fun w => { w with connectedDevice := none }
  | none => pure ()
  updateScanStatus "stopped" none

/-- The object `navigator.bluetooth` and how the platform answers its calls. -/
structure Bluetooth where
  requestDevice : Except JsError BluetoothDevice
  connect : BluetoothDevice → Except JsError GattHandle

/-- The function `startBluetoothScan`; `bluetooth` is `none` when `navigator.bluetooth` is missing. -/
def startBluetoothScan (bluetooth : Option Bluetooth) : Js Unit :=
  tryCatch
    (do
      match bluetooth with
      | none => raise ⟨"Bluetooth is not supported in this browser"⟩
      | some bt =>
        emit .requestDevice
        let device ← await bt.requestDevice
        emit (.connect device)
        let server ← await (bt.connect device)
        modifyWorld fun w => { w with connectedDevice := some server }
        updateScanStatus "connected" device.name
        let h ← setInterval 5000
        modifyWorld fun w => { w with scanningInterval := some h }
        emit (.addDisconnectListener device))
    (fun error => do
      modifyWorld fun w => { w with lastError := some error }
      updateScanStatus "error" (some error.message)
      alert ("Failed to start Bluetooth scanning: " ++ error.message))

/-- The listener `startBluetoothScan` registers for `gattserverdisconnected`. -/
def onGattServerDisconnected (disconnect : Except JsError Unit) : Js Unit := do
  stopBluetoothScan disconnect
  alert "Bluetooth device disconnected. Please reconnect."

/-- How the connected peripheral answers the three awaited calls of one poll;
`readValue` is the text `TextDecoder` produces from the bytes read. -/
structure GattRead where
  getPrimaryService : Except JsError Unit
  getCharacteristic : Except JsError Unit
  readValue : Except JsError String

/-- The function `scanForBeacons`: one tick of the poll timer.  The `catch` block
reaches `stopBluetoothScan` only for an error whose message contains
`disconnected`, which is not the message thrown for a missing device; such an
error comes from a call made through `connectedDevice.gatt`, so `gatt` is
there and its `disconnect` returns. -/
def scanForBeacons (P : Platform) (gatt : GattRead) (net : FetchOutcome) : Js Unit :=
  tryCatch
    (do
      let w ← readWorld
      match w.connectedDevice with
      | none => raise ⟨"No device connected"⟩
      | some _ =>
        await gatt.getPrimaryService
        await gatt.getCharacteristic
        let deviceName ← await gatt.readValue
        if startsWith deviceName "LECTURER_" then
          -- `split` yields at least two parts here (`split_second_of_startsWith`)
          match (split deviceName '_')[1]? with
          | none => pure ()
          | some beaconId =>
            let w ← readWorld
            if !w.discoveredBeacons.contains beaconId then
              modifyWorld fun w => { w with discoveredBeacons := w.discoveredBeacons ++ [beaconId] }
              markAttendance P beaconId net
            else
              pure ()
        else
          pure ())
    (fun error =>
      if includes error.message "disconnected" then do
        stopBluetoothScan (.ok ())
        alert "Bluetooth device disconnected. Please reconnect."
      else
        pure ())

/-! ## Form validation -/

/-- The fragment of regular expressions `macRegex` is written in. -/
inductive Regex where
  | bol
  | eol
  | cls (ranges : List (Char × Char))
  | seq (r s : Regex)
  | rep (n : Nat) (r : Regex)

/-- Applying a step `n` times in a row, stopping at the first failure. -/
def iterate {α : Type} (step : α → Option α) : Nat → α → Option α
  | 0, a => some a
  | n + 1, a => (step a).bind (iterate step n)

/-- Matching at a cursor (index reached, input left): the cursor after the match.
The fragment has no alternation and only counted repetition, so a match is unique. -/
def Regex.run : Regex → Nat × List Char → Option (Nat × List Char)
  | .bol, (i, rest) => if i = 0 then some (i, rest) else none
  | .eol, (i, rest) => if rest.isEmpty then some (i, rest) else none
  | .cls _, (_, []) => none
  | .cls ranges, (i, c :: rest) =>
    if ranges.any (fun r => decide (r.1 ≤ c) && decide (c ≤ r.2)) then some (i + 1, rest) else none
  | .seq r s, cur => (r.run cur).bind s.run
  | .rep n r, cur => iterate (fun c => r.run c) n cur

/-- The method `regex.test(s)`: a match starting at some index of `s`. -/
def Regex.test (re : Regex) (s : String) : Bool :=
  (List.range (s.data.length + 1)).any fun i => (re.run (i, s.data.drop i)).isSome

/-- The class `[0-9A-Fa-f]`. -/
def hexClass : Regex := .cls [('0', '9'), ('A', 'F'), ('a', 'f')]

/-- The class `[:-]`. -/
def sepClass : Regex := .cls [(':', ':'), ('-', '-')]

/-- The pattern `/^([0-9A-Fa-f]{2}[:-]){5}([0-9A-Fa-f]{2})$/`. -/
def macRegex : Regex :=
  .seq .bol (.seq (.rep 5 (.seq (.rep 2 hexClass) sepClass)) (.seq (.rep 2 hexClass) .eol))

/-- The function `validateMacAddress`. -/
def validateMacAddress (mac : String) : Bool := macRegex.test mac

/-- A hexadecimal digit: `0-9`, `a-f` or `A-F`. -/
def isHexDigit (c : Char) : Bool :=
  (decide ('0' ≤ c) && decide (c ≤ '9')) || (decide ('a' ≤ c) && decide (c ≤ 'f'))
    || (decide ('A' ≤ c) && decide (c ≤ 'F'))

/-- A separator: a colon or a hyphen. -/
def isSeparator (c : Char) : Bool := c = ':' || c = '-'

/-- The reference reading of a MAC address, in the words of the specification:
17 characters, every third one a separator, all others hexadecimal digits. -/
def macReference (s : String) : Bool :=
  decide (s.data.length = 17) &&
    (List.range 17).all fun i =>
      match s.data[i]? with
      | some c => if i % 3 = 2 then isSeparator c else isHexDigit c
      | none => false

/-! ## Concrete worlds -/

/-- A freshly loaded page: nothing scanned, nothing connected, no timer running. -/
def initialWorld (storage : List (String × String)) : World :=
  { scanningInterval := none,
    discoveredBeacons := [],
    connectedDevice := none,
    lastError := none,
    localStorage := storage,
    location := "dashboard.html",
    presenter := stoppedPresenter,
    timers := [],
    nextTimer := 1,
    trace := [] }

/-- A platform on which the chooser returns a device and the connection succeeds. -/
def workingBluetooth : Bluetooth :=
  { requestDevice := .ok { id := 7, name := some "Test Device" },
    connect := fun d => .ok { id := d.id } }

/-- Two successful starts in a row, then a stop whose `disconnect` ends as given. -/
def startStartStop (disconnect : Except JsError Unit) : Js Unit := do
  startBluetoothScan (some workingBluetooth)
  startBluetoothScan (some workingBluetooth)
  stopBluetoothScan disconnect

/-- The page after one successful `startBluetoothScan`. -/
def afterStart : World := (startBluetoothScan (some workingBluetooth) (initialWorld [])).2

/-- The `TypeError` of `connectedDevice.gatt.disconnect()` on an object without a
`gatt` property; the wording is the engine's. -/
def missingGatt : JsError := ⟨"Cannot read properties of undefined (reading disconnect)"⟩

/-! ## Reading the trace, closed forms -/

/-- The messages shown by `alert`, in order. -/
def alerts : List Effect → List String
  | [] => []
  | .alert m :: rest => m :: alerts rest
  | _ :: rest => alerts rest

/-- The requests issued by `fetch`, in order. -/
def fetches : List Effect → List (String × Obj)
  | [] => []
  | .fetch url init :: rest => (url, init) :: fetches rest
  | _ :: rest => fetches rest

/-- The identifiers `markAttendance` was called with, in order. -/
def attendanceCalls : List Effect → List String
  | [] => []
  | .markAttendance b :: rest => b :: attendanceCalls rest
  | _ :: rest => attendanceCalls rest

/-- The header `name` of a request: the property `name` of its `headers` object. -/
def requestHeader (init : Obj) (name : String) : Option JsVal :=
  match Obj.get? init "headers" with
  | some (.obj headers) => Obj.get? headers name
  | _ => none

/-- The error `apiRequest` throws for a response that is not `ok` and whose body parsed to `v`. -/
def failureOf (P : Platform) (v : JsVal) : JsError :=
  match v with
  | .undefined => ⟨P.nullishRead "detail"⟩
  | .null => ⟨P.nullishRead "detail"⟩
  | .obj props =>
    ⟨if ((Obj.get? props "detail").getD .undefined).truthy
      then ((Obj.get? props "detail").getD .undefined).toJsString P else "API request failed"⟩
  | _ => ⟨"API request failed"⟩

/-- What `apiRequest` returns or throws, as a function of the network's answer. -/
def settle (P : Platform) : FetchOutcome → Except JsError JsVal
  | .rejected e => .error e
  | .responded r =>
    match r.json with
    | .error e => .error e
    | .ok v => if r.ok then .ok v else .error (failureOf P v)

/-- An engine for the concrete runs below. -/
def samplePlatform : Platform :=
  { toStr := fun _ => "[object Object]",
    stringify := fun _ => "json",
    nullishRead := fun k => "Cannot read properties of null (reading " ++ k ++ ")" }

/-- Options in which the caller passes one header of its own. -/
def tracedOptions : Obj := [("headers", .obj [("X-Request-Id", .str "1")])]

/-! ## Auxiliary definitions for one tick -/

/-- The first of the three awaited GATT calls that fails, if any. -/
def GattRead.failure (gatt : GattRead) : Option JsError :=
  match gatt.getPrimaryService, gatt.getCharacteristic, gatt.readValue with
  | .error e, _, _ => some e
  | .ok _, .error e, _ => some e
  | .ok _, .ok _, .error e => some e
  | .ok _, .ok _, .ok _ => none

/-- The error raised inside the `try` block of `scanForBeacons`, if any. -/
def raisedInTick (w : World) (gatt : GattRead) : Option JsError :=
  match w.connectedDevice with
  | none => some ⟨"No device connected"⟩
  | some _ => gatt.failure

/-- The beacon identifier `scanForBeacons` extracts from a device name
(the `startsWith` test and the `split('_')[1]` of the source). -/
def beaconIdOf (deviceName : String) : Option String :=
  if startsWith deviceName "LECTURER_" then (split deviceName '_')[1]? else none

/-- The part of `s` before its first underscore; all of `s` when it has none. -/
def beforeUnderscore (s : String) : String :=
  ⟨s.data.takeWhile (fun c => c ≠ '_')⟩

/-- The `catch` block of `scanForBeacons`. -/
def scanCatch (error : JsError) : Js Unit :=
  if includes error.message "disconnected" then do
    stopBluetoothScan (.ok ())
    alert "Bluetooth device disconnected. Please reconnect."
  else
    pure ()

/-- A page in the middle of a scan: device 7 connected, timer 1 running. -/
def scanningWorld : World :=
  { initialWorld [("token", "test-token")] with
    scanningInterval := some ⟨1⟩,
    connectedDevice := some ⟨7⟩,
    timers := [⟨1⟩],
    nextTimer := 2 }

/-! ## Runs of ticks -/

/-- One firing of the poll timer in which the read succeeds: the name read and
how the network answers the report, should one be made. -/
structure Tick where
  deviceName : String
  net : FetchOutcome

/-- The GATT answers of a tick that reads its name. -/
def Tick.gatt (t : Tick) : GattRead := ⟨.ok (), .ok (), .ok t.deviceName⟩

/-- The world after a sequence of ticks. -/
def runTicks (P : Platform) (ticks : List Tick) (w : World) : World :=
  ticks.foldl (fun w t => (scanForBeacons P t.gatt t.net w).2) w

/-- Three ticks: a beacon whose report fails, another device, the same beacon again. -/
def sampleTicks : List Tick :=
  [⟨"LECTURER_42", .rejected ⟨"offline"⟩⟩,
   ⟨"Speaker", .responded ⟨true, .ok (.obj [])⟩⟩,
   ⟨"LECTURER_42", .responded ⟨true, .ok (.obj [])⟩⟩]

/-! ## MAC addresses -/

/-- One group of `macRegex` with its separator: `[0-9A-Fa-f]{2}[:-]`. -/
def macGroup : Regex := .seq (.rep 2 hexClass) sepClass

/-! # Theorems -/

/-! ## Unfolding lemmas -/

theorem bind_apply {α β : Type} (m : Js α) (f : α → Js β) (w : World) :
    (m >>= f) w = match m w with
      | (.normal a, w') => f a w'
      | (.thrown e, w') => (.thrown e, w') := rfl

theorem pure_apply {α : Type} (a : α) (w : World) : (pure a : Js α) w = (.normal a, w) := rfl

/-! ## Session guard -/

/-- C7 (as amended): a non-empty stored token is returned unchanged and nothing
else changes; with no token or an empty token `checkAuth` returns `false` and
sets the location to `login.html`; storage is never modified. -/
theorem checkAuth_spec (w : World) :
    (∀ t, getItem w.localStorage "token" = some t → t ≠ "" →
        checkAuth w = (.normal (.token t), w)) ∧
    ((getItem w.localStorage "token" = none ∨ getItem w.localStorage "token" = some "") →
        checkAuth w = (.normal .denied, { w with location := "login.html" })) ∧
    (checkAuth w).2.localStorage = w.localStorage := by
  refine ⟨?_, ?_, ?_⟩
  · intro t ht hne
    simp [checkAuth, ht, hne]
  · rintro (h | h) <;> simp [checkAuth, h]
  · unfold checkAuth
    split
    · rfl
    · split <;> rfl

/-- C7 witness: the token `test-token` of the repository's test is returned as it is. -/
theorem checkAuth_spec_witness :
    checkAuth (initialWorld [("token", "test-token")])
      = (.normal (.token "test-token"), initialWorld [("token", "test-token")]) :=
  (checkAuth_spec (initialWorld [("token", "test-token")])).1 "test-token" rfl (by decide)

/-- C7 counterexample: with the empty string stored under `token`, a token
string is present, yet `checkAuth` does not return it: it returns `false` and
changes the location to `login.html`. -/
theorem checkAuth_empty_token :
    getItem (initialWorld [("token", "")]).localStorage "token" = some "" ∧
    (checkAuth (initialWorld [("token", "")])).1 ≠ .normal (.token "") ∧
    (checkAuth (initialWorld [("token", "")])).1 = .normal .denied ∧
    (checkAuth (initialWorld [("token", "")])).2.location = "login.html" ∧
    (checkAuth (initialWorld [("token", "")])).2.location
      ≠ (initialWorld [("token", "")]).location := by
  refine ⟨rfl, ?_, rfl, rfl, by decide⟩
  intro h
  have h' : Completion.normal AuthResult.denied = Completion.normal (AuthResult.token "") := h
  cases h'

/-! ## Stopping and starting a scan -/

/-- When `disconnect` returns, `stopBluetoothScan` never throws; it clears the
recorded timer and disconnects the connected device when there is one, leaves
both handles `null` and the presenter stopped; a second call changes nothing
and makes no call. -/
theorem stopBluetoothScan_returning (w : World) :
    (stopBluetoothScan (.ok ()) w).1 = .normal () ∧
    (stopBluetoothScan (.ok ()) w).2.scanningInterval = none ∧
    (stopBluetoothScan (.ok ()) w).2.connectedDevice = none ∧
    (stopBluetoothScan (.ok ()) w).2.presenter = stoppedPresenter ∧
    (stopBluetoothScan (.ok ()) w).2.timers =
      (match w.scanningInterval with
        | some h => w.timers.filter (fun t => t ≠ h)
        | none => w.timers) ∧
    (stopBluetoothScan (.ok ()) w).2.trace =
      w.trace
        ++ (match w.scanningInterval with
            | some h => [Effect.clearInterval h]
            | none => [])
        ++ (match w.connectedDevice with
            | some server => [Effect.disconnect server]
            | none => []) ∧
    stopBluetoothScan (.ok ()) (stopBluetoothScan (.ok ()) w).2
      = (.normal (), (stopBluetoothScan (.ok ()) w).2) := by
  obtain ⟨si, db, cd, le, ls, loc, pr, ts, nt, tr⟩ := w
  cases si <;> cases cd <;>
    simp [stopBluetoothScan, bind_apply, pure_apply, readWorld, modifyWorld, clearInterval, emit,
      updateScanStatus, stoppedPresenter, await]

/-- What a throwing `disconnect` leaves behind: with a device connected,
`stopBluetoothScan` clears the recorded timer and then throws; the device handle
and the presenter are left as they were and no disconnect is made. -/
theorem stopBluetoothScan_throwing (w : World) (server : GattHandle) (e : JsError)
    (hc : w.connectedDevice = some server) :
    stopBluetoothScan (.error e) w =
      (.thrown e,
        match w.scanningInterval with
        | some h =>
          { w with scanningInterval := none,
                   timers := w.timers.filter (fun t => t ≠ h),
                   trace := w.trace ++ [.clearInterval h] }
        | none => w) := by
  obtain ⟨si, db, cd, le, ls, loc, pr, ts, nt, tr⟩ := w
  simp only at hc
  subst hc
  cases si <;>
    simp [stopBluetoothScan, bind_apply, pure_apply, readWorld, modifyWorld, clearInterval, emit,
      await, raise]

/-- C8 (the code's behaviour): after a successful `startBluetoothScan` the object
kept in `connectedDevice` is what `device.gatt.connect()` resolved to, which has
no `gatt` property, so `connectedDevice.gatt.disconnect()` throws.  A call of
`stopBluetoothScan` then clears the timer and throws: the device handle stays
set, the presenter is not reset to the stopped state, no disconnect is made,
and a second call throws again. -/
theorem stopBluetoothScan_missing_gatt :
    afterStart.scanningInterval = some ⟨1⟩ ∧
    afterStart.connectedDevice = some ⟨7⟩ ∧
    afterStart.timers = [⟨1⟩] ∧
    (stopBluetoothScan (.error missingGatt) afterStart).1 = .thrown missingGatt ∧
    (stopBluetoothScan (.error missingGatt) afterStart).2.scanningInterval = none ∧
    (stopBluetoothScan (.error missingGatt) afterStart).2.timers = [] ∧
    (stopBluetoothScan (.error missingGatt) afterStart).2.connectedDevice = some ⟨7⟩ ∧
    (stopBluetoothScan (.error missingGatt) afterStart).2.presenter = afterStart.presenter ∧
    (stopBluetoothScan (.error missingGatt) afterStart).2.presenter ≠ stoppedPresenter ∧
    (stopBluetoothScan (.error missingGatt)
        (stopBluetoothScan (.error missingGatt) afterStart).2).1 = .thrown missingGatt ∧
    (stopBluetoothScan (.error missingGatt)
        (stopBluetoothScan (.error missingGatt) afterStart).2).2.connectedDevice
      = some ⟨7⟩ := by
  refine ⟨rfl, rfl, rfl, rfl, rfl, by decide, rfl, rfl, by decide, rfl, rfl⟩

/-- C6 (the code's behaviour): without `navigator.bluetooth`, `startBluetoothScan`
ends normally, so its promise is fulfilled, not rejected.  The error is
recorded, shown in the presenter and in one alert; the chooser is not opened
and no timer is started. -/
theorem startBluetoothScan_unsupported_resolves (w : World) :
    (startBluetoothScan none w).1 = .normal () ∧
    (startBluetoothScan none w).2.lastError
      = some ⟨"Bluetooth is not supported in this browser"⟩ ∧
    includes "Bluetooth is not supported in this browser" "Bluetooth is not supported" = true ∧
    (startBluetoothScan none w).2.trace = w.trace ++
      [.alert "Failed to start Bluetooth scanning: Bluetooth is not supported in this browser"] ∧
    (startBluetoothScan none w).2.timers = w.timers ∧
    (startBluetoothScan none w).2.scanningInterval = w.scanningInterval := by
  refine ⟨rfl, rfl, by decide, ?_, rfl, rfl⟩
  simp [startBluetoothScan, tryCatch, raise, bind_apply, modifyWorld, updateScanStatus, alert, emit]

/-- C9 (the code's behaviour): after a first successful start timer 1 runs and
is recorded; a second successful start records timer 2 without clearing timer 1,
so two timers run; the following stop, however its `disconnect` ends, clears
timer 2 only and timer 1 keeps running with no handle left to clear it. -/
theorem second_start_leaks_timer :
    (startBluetoothScan (some workingBluetooth) (initialWorld [])).2.timers = [⟨1⟩] ∧
    ((startBluetoothScan (some workingBluetooth) >>= fun _ =>
        startBluetoothScan (some workingBluetooth)) (initialWorld [])).2.timers = [⟨1⟩, ⟨2⟩] ∧
    ((startBluetoothScan (some workingBluetooth) >>= fun _ =>
        startBluetoothScan (some workingBluetooth)) (initialWorld [])).2.scanningInterval
      = some ⟨2⟩ ∧
    (∀ disconnect, (startStartStop disconnect (initialWorld [])).2.timers = [⟨1⟩]) ∧
    (∀ disconnect, (startStartStop disconnect (initialWorld [])).2.scanningInterval = none) := by
  refine ⟨rfl, rfl, rfl, ?_, ?_⟩
  · rintro (e | u)
    · rfl
    · rfl
  · rintro (e | u)
    · rfl
    · rfl

/-! ## Request client -/

theorem alerts_append (a b : List Effect) : alerts (a ++ b) = alerts a ++ alerts b := by
  induction a with
  | nil => rfl
  | cons e a ih => cases e <;> simp [alerts, ih]

theorem fetches_append (a b : List Effect) : fetches (a ++ b) = fetches a ++ fetches b := by
  induction a with
  | nil => rfl
  | cons e a ih => cases e <;> simp [fetches, ih]

theorem attendanceCalls_append (a b : List Effect) :
    attendanceCalls (a ++ b) = attendanceCalls a ++ attendanceCalls b := by
  induction a with
  | nil => rfl
  | cons e a ih => cases e <;> simp [attendanceCalls, ih]

theorem get?_cons (k' : String) (v : JsVal) (o : Obj) (k : String) :
    Obj.get? ((k', v) :: o) k =
      match Obj.get? o k with
      | some v' => some v'
      | none => if k' = k then some v else none := rfl

theorem get?_append (a b : Obj) (k : String) :
    Obj.get? (a ++ b) k = (Obj.get? b k).orElse (fun _ => Obj.get? a k) := by
  induction a with
  | nil => cases h : Obj.get? b k <;> simp [Obj.get?, h]
  | cons kv a ih =>
    obtain ⟨k', v⟩ := kv
    show Obj.get? ((k', v) :: (a ++ b)) k = _
    rw [get?_cons, get?_cons, ih]
    cases hb : Obj.get? b k <;> simp

/-- The world after `checkAuth`: only the location can have changed. -/
theorem checkAuth_world (w : World) :
    (checkAuth w).2 = { w with location := (checkAuth w).2.location } ∧
    ∃ auth, (checkAuth w).1 = .normal auth := by
  unfold checkAuth
  split
  · exact ⟨rfl, _, rfl⟩
  · split
    · exact ⟨rfl, _, rfl⟩
    · exact ⟨rfl, _, rfl⟩

/-- Closed form of `apiRequest`: one `fetch`, then the value is returned, or the
error is shown in one alert and thrown. -/
theorem apiRequest_eq (P : Platform) (endpoint : String) (options : Obj) (net : FetchOutcome)
    (w : World) (auth : AuthResult) (w1 : World) (h : checkAuth w = (.normal auth, w1)) :
    apiRequest P endpoint options net w =
      match settle P net with
      | .ok v =>
        (.normal v,
          { w1 with trace := w1.trace ++
              [.fetch (API_BASE_URL ++ endpoint) (spread (defaultOptions auth) options)] })
      | .error e =>
        (.thrown e,
          { w1 with trace := w1.trace ++
              [.fetch (API_BASE_URL ++ endpoint) (spread (defaultOptions auth) options)] ++
              [.alert e.message] }) := by
  rcases net with e | ⟨ok, js⟩
  · simp [apiRequest, bind_apply, h, tryCatch, fetch, emit, raise, alert, settle]
  · rcases js with e | v
    · cases ok <;>
        simp [apiRequest, bind_apply, pure_apply, h, tryCatch, fetch, emit, raise, alert, settle,
          Response.readJson]
    · cases ok
      · cases v <;>
          simp [apiRequest, bind_apply, pure_apply, h, tryCatch, fetch, emit, raise, alert,
            settle, Response.readJson, readDetail, failureOf, JsVal.truthy]
      · simp [apiRequest, bind_apply, pure_apply, h, tryCatch, fetch, emit, raise, alert, settle,
          Response.readJson]

theorem checkAuth_split (w : World) :
    ∃ auth, checkAuth w = (.normal auth, (checkAuth w).2) := by
  obtain ⟨auth, h⟩ := (checkAuth_world w).2
  exact ⟨auth, Prod.ext h rfl⟩

theorem checkAuth_trace (w : World) : (checkAuth w).2.trace = w.trace := by
  rw [(checkAuth_world w).1]

/-- C3 (as amended): a successful response whose body parses is returned
unchanged and no alert is shown.  For a response that is not `ok` and whose body
parses as a JSON object, `apiRequest` throws an error whose message is the string
form of `detail` when `detail` is truthy (a non-empty string is used as it is)
and `API request failed` when `detail` is absent or falsy, after showing that
message in exactly one alert.  A response that is not `ok` never yields a value. -/
theorem apiRequest_outcome (P : Platform) (endpoint : String) (options : Obj) (w : World)
    (r : Response) :
    (∀ v, r.ok = true → r.json = .ok v →
      (apiRequest P endpoint options (.responded r) w).1 = .normal v ∧
      alerts (apiRequest P endpoint options (.responded r) w).2.trace = alerts w.trace) ∧
    (∀ props, r.ok = false → r.json = .ok (.obj props) →
      (apiRequest P endpoint options (.responded r) w).1 =
        .thrown ⟨if ((Obj.get? props "detail").getD .undefined).truthy
          then ((Obj.get? props "detail").getD .undefined).toJsString P
          else "API request failed"⟩ ∧
      alerts (apiRequest P endpoint options (.responded r) w).2.trace =
        alerts w.trace ++
          [if ((Obj.get? props "detail").getD .undefined).truthy
            then ((Obj.get? props "detail").getD .undefined).toJsString P
            else "API request failed"]) ∧
    (∀ props s, r.ok = false → r.json = .ok (.obj props) →
      Obj.get? props "detail" = some (.str s) → s ≠ "" →
      (apiRequest P endpoint options (.responded r) w).1 = .thrown ⟨s⟩ ∧
      alerts (apiRequest P endpoint options (.responded r) w).2.trace = alerts w.trace ++ [s]) ∧
    (∀ props, r.ok = false → r.json = .ok (.obj props) →
      (Obj.get? props "detail" = none ∨ Obj.get? props "detail" = some (.str "")) →
      (apiRequest P endpoint options (.responded r) w).1 = .thrown ⟨"API request failed"⟩ ∧
      alerts (apiRequest P endpoint options (.responded r) w).2.trace =
        alerts w.trace ++ ["API request failed"]) ∧
    (r.ok = false → ∀ v, (apiRequest P endpoint options (.responded r) w).1 ≠ .normal v) := by
  obtain ⟨auth, hauth⟩ := checkAuth_split w
  have htr := checkAuth_trace w
  have key := apiRequest_eq P endpoint options (.responded r) w auth _ hauth
  refine ⟨?_, ?_, ?_, ?_, ?_⟩
  · intro v hok hjs
    simp [key, settle, hok, hjs, alerts_append, alerts, htr]
  · intro props hok hjs
    simp [key, settle, hok, hjs, failureOf, alerts_append, alerts, htr]
  · intro props s hok hjs hd hne
    simp [key, settle, hok, hjs, failureOf, hd, hne, JsVal.truthy, JsVal.toJsString,
      alerts_append, alerts, htr]
  · rintro props hok hjs (hd | hd) <;>
      simp [key, settle, hok, hjs, failureOf, hd, JsVal.truthy, alerts_append, alerts, htr]
  · intro hok v
    rw [key]
    cases hjs : r.json <;> simp [settle, hok, hjs]

/-- C3 witness: the error response of the repository's test, `detail` being `error`. -/
theorem apiRequest_outcome_witness :
    (apiRequest samplePlatform "/test" []
        (.responded ⟨false, .ok (.obj [("detail", .str "error")])⟩)
        (initialWorld [("token", "test-token")])).1 = .thrown ⟨"error"⟩ ∧
    alerts (apiRequest samplePlatform "/test" []
        (.responded ⟨false, .ok (.obj [("detail", .str "error")])⟩)
        (initialWorld [("token", "test-token")])).2.trace
      = alerts (initialWorld [("token", "test-token")]).trace ++ ["error"] :=
  (apiRequest_outcome samplePlatform "/test" [] (initialWorld [("token", "test-token")])
    ⟨false, .ok (.obj [("detail", .str "error")])⟩).2.2.1
    [("detail", .str "error")] "error" rfl rfl rfl (by decide)

/-- C3 counterexample: the body of a failed response carries the field `detail`
with the empty string; the error thrown and the alert shown do not carry the
field but `API request failed`. -/
theorem apiRequest_empty_detail :
    Obj.get? [("detail", JsVal.str "")] "detail" = some (.str "") ∧
    (apiRequest samplePlatform "/test" []
        (.responded ⟨false, .ok (.obj [("detail", .str "")])⟩)
        (initialWorld [("token", "test-token")])).1 ≠ .thrown ⟨""⟩ ∧
    (apiRequest samplePlatform "/test" []
        (.responded ⟨false, .ok (.obj [("detail", .str "")])⟩)
        (initialWorld [("token", "test-token")])).1 = .thrown ⟨"API request failed"⟩ ∧
    alerts (apiRequest samplePlatform "/test" []
        (.responded ⟨false, .ok (.obj [("detail", .str "")])⟩)
        (initialWorld [("token", "test-token")])).2.trace = ["API request failed"] := by
  refine ⟨rfl, ?_, rfl, rfl⟩
  intro h
  have h' : (Completion.thrown ⟨"API request failed"⟩ : Completion JsVal)
      = Completion.thrown ⟨""⟩ := h
  have h'' : (⟨"API request failed"⟩ : JsError) = ⟨""⟩ := by
    injection h'
  exact absurd h'' (by decide)

/-- C2 (as amended): with a non-empty token `t` stored, `apiRequest` issues
exactly one request, to `API_BASE_URL` followed by the endpoint, whose options
are the spread of `defaultOptions` and the caller's options: every key the
caller sets, `headers` included, has the caller's value; any other key than
`headers` is absent; when the caller sets no `headers`, the headers are the two
defaults; when the caller sets `headers`, exactly the caller's headers are sent. -/
theorem apiRequest_request (P : Platform) (endpoint : String) (options : Obj)
    (net : FetchOutcome) (w : World) (t : String)
    (ht : getItem w.localStorage "token" = some t) (hne : t ≠ "") :
    fetches (apiRequest P endpoint options net w).2.trace =
      fetches w.trace ++
        [(API_BASE_URL ++ endpoint, spread (defaultOptions (.token t)) options)] ∧
    (∀ k v, Obj.get? options k = some v →
      Obj.get? (spread (defaultOptions (.token t)) options) k = some v) ∧
    (∀ k, k ≠ "headers" → Obj.get? options k = none →
      Obj.get? (spread (defaultOptions (.token t)) options) k = none) ∧
    (Obj.get? options "headers" = none →
      requestHeader (spread (defaultOptions (.token t)) options) "Authorization"
        = some (.str ("Bearer " ++ t)) ∧
      requestHeader (spread (defaultOptions (.token t)) options) "Content-Type"
        = some (.str "application/json") ∧
      ∀ name, name ≠ "Authorization" → name ≠ "Content-Type" →
        requestHeader (spread (defaultOptions (.token t)) options) name = none) ∧
    (∀ headers, Obj.get? options "headers" = some (.obj headers) →
      ∀ name, requestHeader (spread (defaultOptions (.token t)) options) name
        = Obj.get? headers name) := by
  have hauth : checkAuth w = (.normal (.token t), w) := by simp [checkAuth, ht, hne]
  have key := apiRequest_eq P endpoint options net w _ _ hauth
  refine ⟨?_, ?_, ?_, ?_, ?_⟩
  · rw [key]
    cases settle P net <;> simp [fetches_append, fetches]
  · intro k v hk
    simp [spread, get?_append, hk]
  · intro k hne' hk
    have : ¬ ("headers" = k) := fun h => hne' h.symm
    simp [spread, get?_append, hk, defaultOptions, Obj.get?, this]
  · intro hk
    have hh : Obj.get? (spread (defaultOptions (.token t)) options) "headers"
        = some (.obj [("Authorization", .str ("Bearer " ++ t)),
                      ("Content-Type", .str "application/json")]) := by
      simp [spread, get?_append, hk, defaultOptions, Obj.get?, AuthResult.text]
    refine ⟨?_, ?_, ?_⟩
    · unfold requestHeader
      rw [hh]
      simp [Obj.get?]
    · unfold requestHeader
      rw [hh]
      simp [Obj.get?]
    · intro name h1 h2
      have h1' : ¬ ("Authorization" = name) := fun h => h1 h.symm
      have h2' : ¬ ("Content-Type" = name) := fun h => h2 h.symm
      unfold requestHeader
      rw [hh]
      simp [Obj.get?, h1', h2']
  · intro headers hk name
    have hh : Obj.get? (spread (defaultOptions (.token t)) options) "headers"
        = some (.obj headers) := by
      simp [spread, get?_append, hk]
    unfold requestHeader
    rw [hh]

/-- C2 witness: the request of the repository's test, `apiRequest('/test')` with the token `test-token`. -/
theorem apiRequest_request_witness :
    fetches (apiRequest samplePlatform "/test" []
        (.responded ⟨true, .ok (.obj [("data", .str "test")])⟩)
        (initialWorld [("token", "test-token")])).2.trace =
      fetches (initialWorld [("token", "test-token")]).trace ++
        [(API_BASE_URL ++ "/test", spread (defaultOptions (.token "test-token")) [])] ∧
    requestHeader (spread (defaultOptions (.token "test-token")) []) "Authorization"
      = some (.str ("Bearer " ++ "test-token")) :=
  ⟨(apiRequest_request samplePlatform "/test" []
      (.responded ⟨true, .ok (.obj [("data", .str "test")])⟩)
      (initialWorld [("token", "test-token")]) "test-token" rfl (by decide)).1,
   ((apiRequest_request samplePlatform "/test" []
      (.responded ⟨true, .ok (.obj [("data", .str "test")])⟩)
      (initialWorld [("token", "test-token")]) "test-token" rfl (by decide)).2.2.2.1 rfl).1⟩

/-- C2 counterexample: the caller passes `headers` with the single key
`X-Request-Id`, setting neither `Authorization` nor `Content-Type`.  The request
carries the caller's header only: the default `Authorization` and
`Content-Type` headers are not sent. -/
theorem apiRequest_caller_headers_replace_defaults :
    fetches (apiRequest samplePlatform "/test" tracedOptions
        (.responded ⟨true, .ok (.obj [])⟩) (initialWorld [("token", "test-token")])).2.trace
      = [("http://localhost:8000/test",
          spread (defaultOptions (.token "test-token")) tracedOptions)] ∧
    Obj.get? [("X-Request-Id", JsVal.str "1")] "Authorization" = none ∧
    Obj.get? [("X-Request-Id", JsVal.str "1")] "Content-Type" = none ∧
    requestHeader (spread (defaultOptions (.token "test-token")) tracedOptions) "X-Request-Id"
      = some (.str "1") ∧
    requestHeader (spread (defaultOptions (.token "test-token")) tracedOptions) "Authorization"
      ≠ some (.str "Bearer test-token") ∧
    requestHeader (spread (defaultOptions (.token "test-token")) tracedOptions) "Authorization"
      = none ∧
    requestHeader (spread (defaultOptions (.token "test-token")) tracedOptions) "Content-Type"
      = none := by
  refine ⟨rfl, rfl, rfl, rfl, ?_, rfl, rfl⟩
  intro h
  have h' : (none : Option JsVal) = some (.str "Bearer test-token") := h
  cases h'

/-- Shape of `apiRequest`: besides the result, only the location and the trace
change, and the trace grows by one `fetch`, followed by one alert when it throws. -/
theorem apiRequest_shape (P : Platform) (endpoint : String) (options : Obj) (net : FetchOutcome)
    (w : World) :
    ∃ loc auth,
      apiRequest P endpoint options net w =
        match settle P net with
        | .ok v =>
          (.normal v,
            { w with location := loc,
                     trace := w.trace ++
                      [.fetch (API_BASE_URL ++ endpoint) (spread (defaultOptions auth) options)] })
        | .error e =>
          (.thrown e,
            { w with location := loc,
                     trace := w.trace ++
                      [.fetch (API_BASE_URL ++ endpoint) (spread (defaultOptions auth) options)] ++
                      [.alert e.message] }) := by
  cases hg : getItem w.localStorage "token" with
  | none =>
    have hauth : checkAuth w = (.normal .denied, { w with location := "login.html" }) := by
      simp [checkAuth, hg]
    exact ⟨"login.html", .denied, apiRequest_eq P endpoint options net w _ _ hauth⟩
  | some t =>
    by_cases ht : t = ""
    · have hauth : checkAuth w = (.normal .denied, { w with location := "login.html" }) := by
        simp [checkAuth, hg, ht]
      exact ⟨"login.html", .denied, apiRequest_eq P endpoint options net w _ _ hauth⟩
    · have hauth : checkAuth w = (.normal (.token t), w) := by
        simp [checkAuth, hg, ht]
      exact ⟨w.location, .token t, apiRequest_eq P endpoint options net w _ _ hauth⟩

/-- Closed form of `markAttendance`: it never throws, records its call, and
changes nothing but the location and the trace. -/
theorem markAttendance_eq (P : Platform) (beaconId : String) (net : FetchOutcome) (w : World) :
    ∃ loc rest,
      markAttendance P beaconId net w =
        (.normal (), { w with location := loc,
                              trace := w.trace ++ Effect.markAttendance beaconId :: rest }) ∧
      attendanceCalls rest = [] := by
  obtain ⟨loc, auth, key⟩ := apiRequest_shape P "/bluetooth/mark-attendance"
    [("method", .str "POST"),
     ("body", .str (P.stringify (.obj [("beacon_id", .str beaconId)])))] net
    { w with trace := w.trace ++ [.markAttendance beaconId] }
  cases hs : settle P net with
  | ok v =>
    rw [hs] at key
    refine ⟨loc, [.fetch (API_BASE_URL ++ "/bluetooth/mark-attendance")
        (spread (defaultOptions auth) [("method", .str "POST"),
          ("body", .str (P.stringify (.obj [("beacon_id", .str beaconId)])))]),
       .alert "Attendance marked successfully!"], ?_, rfl⟩
    simp [markAttendance, bind_apply, emit, tryCatch, key, alert]
  | error e =>
    rw [hs] at key
    refine ⟨loc, [.fetch (API_BASE_URL ++ "/bluetooth/mark-attendance")
        (spread (defaultOptions auth) [("method", .str "POST"),
          ("body", .str (P.stringify (.obj [("beacon_id", .str beaconId)])))]),
       .alert e.message, .alert ("Failed to mark attendance: " ++ e.message)], ?_, rfl⟩
    simp [markAttendance, bind_apply, emit, tryCatch, key, alert]

/-! ## One tick of the poll -/

/-- A tick that raises `e` in its `try` block runs the `catch` block on the unchanged world. -/
theorem scanForBeacons_raised (P : Platform) (gatt : GattRead) (net : FetchOutcome) (w : World)
    (e : JsError) (h : raisedInTick w gatt = some e) :
    scanForBeacons P gatt net w = scanCatch e w := by
  unfold raisedInTick at h
  cases hc : w.connectedDevice with
  | none =>
    rw [hc] at h
    cases h
    simp [scanForBeacons, tryCatch, bind_apply, readWorld, hc, raise, scanCatch]
  | some d =>
    rw [hc] at h
    obtain ⟨s1, s2, s3⟩ := gatt
    rcases s1 with e1 | u1
    · simp only [GattRead.failure, Option.some.injEq] at h
      subst h
      simp [scanForBeacons, tryCatch, bind_apply, readWorld, hc, raise, scanCatch, await]
    · rcases s2 with e2 | u2
      · simp only [GattRead.failure, Option.some.injEq] at h
        subst h
        simp [scanForBeacons, tryCatch, bind_apply, pure_apply, readWorld, hc, raise, scanCatch,
          await]
      · rcases s3 with e3 | n3
        · simp only [GattRead.failure, Option.some.injEq] at h
          subst h
          simp [scanForBeacons, tryCatch, bind_apply, pure_apply, readWorld, hc, raise,
            scanCatch, await]
        · simp [GattRead.failure] at h

/-- A tick that reads `deviceName` from a connected device. -/
theorem scanForBeacons_read (P : Platform) (net : FetchOutcome) (w : World) (d : GattHandle)
    (hc : w.connectedDevice = some d) (deviceName : String) :
    scanForBeacons P ⟨.ok (), .ok (), .ok deviceName⟩ net w =
      match beaconIdOf deviceName with
      | none => (.normal (), w)
      | some beaconId =>
        if beaconId ∈ w.discoveredBeacons then (.normal (), w)
        else markAttendance P beaconId net
          { w with discoveredBeacons := w.discoveredBeacons ++ [beaconId] } := by
  unfold beaconIdOf
  obtain ⟨si, db, cd, le, ls, loc0, pr, ts, nt, tr⟩ := w
  simp only at hc
  subst hc
  by_cases hs : startsWith deviceName "LECTURER_" = true
  · cases hsp : (split deviceName '_')[1]? with
    | none =>
      simp [scanForBeacons, tryCatch, bind_apply, pure_apply, readWorld, await, hs, hsp]
    | some b =>
      by_cases hb : b ∈ db
      · simp [scanForBeacons, tryCatch, bind_apply, pure_apply, readWorld, await, hs, hsp, hb]
      · obtain ⟨loc, rest, hm, -⟩ := markAttendance_eq P b net
          ⟨si, db ++ [b], some d, le, ls, loc0, pr, ts, nt, tr⟩
        simp [scanForBeacons, tryCatch, bind_apply, pure_apply, readWorld, await, hs, hsp, hb,
          modifyWorld, hm]
  · simp [scanForBeacons, tryCatch, bind_apply, pure_apply, readWorld, await, hs]

/-- When nothing is raised in the `try` block, a device is connected and a name was read. -/
theorem raisedInTick_none (w : World) (gatt : GattRead) (h : raisedInTick w gatt = none) :
    ∃ d deviceName, w.connectedDevice = some d ∧ gatt = ⟨.ok (), .ok (), .ok deviceName⟩ := by
  unfold raisedInTick at h
  cases hc : w.connectedDevice with
  | none => rw [hc] at h; cases h
  | some d =>
    rw [hc] at h
    obtain ⟨s1, s2, s3⟩ := gatt
    rcases s1 with e1 | u1
    · simp [GattRead.failure] at h
    · rcases s2 with e2 | u2
      · simp [GattRead.failure] at h
      · rcases s3 with e3 | n3
        · simp [GattRead.failure] at h
        · exact ⟨d, n3, rfl, rfl⟩

/-- The function `stopBluetoothScan` does not throw when `disconnect` returns. -/
theorem stopBluetoothScan_normal (w : World) :
    (stopBluetoothScan (.ok ()) w).1 = .normal () := by
  obtain ⟨si, db, cd, le, ls, loc, pr, ts, nt, tr⟩ := w
  cases si <;> cases cd <;> rfl

/-- The `catch` block of `scanForBeacons` never throws. -/
theorem scanCatch_normal (e : JsError) (w : World) : (scanCatch e w).1 = .normal () := by
  unfold scanCatch
  split
  · have h := stopBluetoothScan_normal w
    rw [bind_apply]
    cases hs : stopBluetoothScan (.ok ()) w with
    | mk c w' =>
      rw [hs] at h
      simp only at h
      subst h
      rfl
  · rfl

/-- The function `scanForBeacons` never throws. -/
theorem scanForBeacons_normal (P : Platform) (gatt : GattRead) (net : FetchOutcome) (w : World) :
    (scanForBeacons P gatt net w).1 = .normal () := by
  cases hr : raisedInTick w gatt with
  | some e =>
    rw [scanForBeacons_raised P gatt net w e hr]
    exact scanCatch_normal e w
  | none =>
    obtain ⟨d, deviceName, hc, rfl⟩ := raisedInTick_none w gatt hr
    rw [scanForBeacons_read P net w d hc deviceName]
    cases beaconIdOf deviceName with
    | none => rfl
    | some b =>
      simp only
      split
      · rfl
      · obtain ⟨loc, rest, hm, -⟩ := markAttendance_eq P b net
          { w with discoveredBeacons := w.discoveredBeacons ++ [b] }
        rw [hm]

/-- C10: `scanForBeacons` never throws.  When an error is raised in its `try`
block (no device connected, or one of the three GATT calls fails) and the
message contains `disconnected`, the scan is stopped: both handles are `null`,
the presenter is stopped, the recorded timer is cleared, the device is
disconnected and one alert is shown.  Otherwise the world is left as it was:
same handles, same discovered set, no report.  The error `No device connected`
is of the second kind. -/
theorem scanForBeacons_error_policy (P : Platform) (gatt : GattRead) (net : FetchOutcome)
    (w : World) :
    (scanForBeacons P gatt net w).1 = .normal () ∧
    (w.connectedDevice = none → scanForBeacons P gatt net w = (.normal (), w)) ∧
    ∀ e, raisedInTick w gatt = some e →
      if includes e.message "disconnected" = true then
        (scanForBeacons P gatt net w).2.scanningInterval = none ∧
        (scanForBeacons P gatt net w).2.connectedDevice = none ∧
        (scanForBeacons P gatt net w).2.presenter = stoppedPresenter ∧
        (scanForBeacons P gatt net w).2.discoveredBeacons = w.discoveredBeacons ∧
        (scanForBeacons P gatt net w).2.trace =
          w.trace
            ++ (match w.scanningInterval with
                | some h => [Effect.clearInterval h]
                | none => [])
            ++ (match w.connectedDevice with
                | some server => [Effect.disconnect server]
                | none => [])
            ++ [.alert "Bluetooth device disconnected. Please reconnect."]
      else
        scanForBeacons P gatt net w = (.normal (), w) := by
  refine ⟨scanForBeacons_normal P gatt net w, ?_, ?_⟩
  · intro hc
    have hr : raisedInTick w gatt = some ⟨"No device connected"⟩ := by
      simp [raisedInTick, hc]
    rw [scanForBeacons_raised P gatt net w _ hr]
    have : includes "No device connected" "disconnected" = false := by decide
    simp [scanCatch, this, pure_apply]
  · intro e hr
    rw [scanForBeacons_raised P gatt net w e hr]
    by_cases hi : includes e.message "disconnected" = true
    · rw [if_pos hi]
      obtain ⟨si, db, cd, le, ls, loc, pr, ts, nt, tr⟩ := w
      cases si <;> cases cd <;>
        simp [scanCatch, hi, stopBluetoothScan, bind_apply, pure_apply, readWorld, modifyWorld,
          await,
          clearInterval, emit, alert, updateScanStatus, stoppedPresenter]
    · rw [if_neg hi]
      simp [scanCatch, hi, pure_apply]

/-- C10 witness: a read that fails because the GATT server is disconnected stops the scan. -/
theorem scanForBeacons_error_policy_witness :
    (scanForBeacons samplePlatform
        ⟨.error ⟨"GATT Server is disconnected."⟩, .ok (), .ok ""⟩
        (.rejected ⟨"offline"⟩) scanningWorld).2.scanningInterval = none ∧
    (scanForBeacons samplePlatform
        ⟨.error ⟨"GATT Server is disconnected."⟩, .ok (), .ok ""⟩
        (.rejected ⟨"offline"⟩) scanningWorld).2.connectedDevice = none := by
  have h := (scanForBeacons_error_policy samplePlatform
    ⟨.error ⟨"GATT Server is disconnected."⟩, .ok (), .ok ""⟩
    (.rejected ⟨"offline"⟩) scanningWorld).2.2 ⟨"GATT Server is disconnected."⟩ rfl
  rw [if_pos (by decide)] at h
  exact ⟨h.1, h.2.1⟩

/-! ## Beacon identifiers -/

theorem splitChars_head (sep : Char) (cs : List Char) :
    ∃ tl, splitChars sep cs = cs.takeWhile (fun c => c ≠ sep) :: tl := by
  induction cs with
  | nil => exact ⟨[], rfl⟩
  | cons c cs ih =>
    obtain ⟨tl, htl⟩ := ih
    by_cases hc : c = sep
    · exact ⟨splitChars sep cs, by simp [splitChars, hc]⟩
    · exact ⟨tl, by simp [splitChars, hc, htl]⟩

theorem splitChars_lecturer (rest : List Char) :
    splitChars '_' ("LECTURER_".data ++ rest) = "LECTURER".data :: splitChars '_' rest := by
  obtain ⟨tl, htl⟩ := splitChars_head '_' rest
  simp [splitChars, htl]

/-- The array `split('_')` yields has a second element whenever the name starts with `LECTURER_`. -/
theorem split_second_of_startsWith (deviceName : String)
    (h : startsWith deviceName "LECTURER_" = true) :
    ∃ beaconId, (split deviceName '_')[1]? = some beaconId := by
  unfold startsWith at h
  obtain ⟨t, ht⟩ := List.isPrefixOf_iff_prefix.mp h
  obtain ⟨tl, htl⟩ := splitChars_head '_' t
  refine ⟨⟨t.takeWhile (fun c => c ≠ '_')⟩, ?_⟩
  unfold split
  rw [← ht, splitChars_lecturer, htl]
  simp

/-- The identifier of a name `LECTURER_` followed by `rest`: the part of `rest` before its first underscore. -/
theorem beaconIdOf_prefixed (rest : String) :
    beaconIdOf ("LECTURER_" ++ rest) = some (beforeUnderscore rest) := by
  have hs : startsWith ("LECTURER_" ++ rest) "LECTURER_" = true := by
    unfold startsWith
    rw [String.data_append]
    exact List.isPrefixOf_iff_prefix.mpr (List.prefix_append _ _)
  obtain ⟨tl, htl⟩ := splitChars_head '_' rest.data
  unfold beaconIdOf
  rw [if_pos hs]
  unfold split
  rw [String.data_append, splitChars_lecturer, htl]
  simp [beforeUnderscore]

/-- A name that is not `LECTURER_` followed by something yields no identifier. -/
theorem beaconIdOf_other (deviceName : String) (h : ∀ rest, deviceName ≠ "LECTURER_" ++ rest) :
    beaconIdOf deviceName = none := by
  unfold beaconIdOf
  split
  · rename_i hs
    unfold startsWith at hs
    obtain ⟨t, ht⟩ := List.isPrefixOf_iff_prefix.mp hs
    exact absurd (String.ext (by rw [String.data_append]; exact ht.symm)) (h ⟨t⟩)
  · rfl

/-- Without an underscore in it, `rest` is its own part before the first underscore. -/
theorem beforeUnderscore_eq (rest : String) (h : '_' ∉ rest.data) :
    beforeUnderscore rest = rest := by
  unfold beforeUnderscore
  apply String.ext
  simp only
  rw [List.takeWhile_eq_self_iff]
  intro c hc
  simp only [decide_eq_true_eq]
  rintro rfl
  exact h hc

/-- The effect of a tick on a beacon identifier that was not discovered before. -/
theorem markAttendance_effect (P : Platform) (beaconId : String) (net : FetchOutcome) (w : World) :
    (markAttendance P beaconId net w).2.discoveredBeacons = w.discoveredBeacons ∧
    (markAttendance P beaconId net w).2.connectedDevice = w.connectedDevice ∧
    attendanceCalls (markAttendance P beaconId net w).2.trace
      = attendanceCalls w.trace ++ [beaconId] := by
  obtain ⟨loc, rest, hm, hrest⟩ := markAttendance_eq P beaconId net w
  rw [hm]
  refine ⟨rfl, rfl, ?_⟩
  simp [attendanceCalls_append, attendanceCalls, hrest]

/-- C4 (as amended): with a device connected, a tick that reads the name
`LECTURER_` followed by `rest` takes as identifier the part of `rest` before its
first underscore (all of `rest` when it has none): if that identifier is in the
discovered set the tick changes nothing, otherwise it is added to the set and
reported once.  A tick that reads any other name changes nothing. -/
theorem scanForBeacons_extraction (P : Platform) (net : FetchOutcome) (w : World)
    (d : GattHandle) (hc : w.connectedDevice = some d) (deviceName : String) :
    (∀ rest, deviceName = "LECTURER_" ++ rest →
      (beforeUnderscore rest ∈ w.discoveredBeacons →
        scanForBeacons P ⟨.ok (), .ok (), .ok deviceName⟩ net w = (.normal (), w)) ∧
      (beforeUnderscore rest ∉ w.discoveredBeacons →
        (scanForBeacons P ⟨.ok (), .ok (), .ok deviceName⟩ net w).2.discoveredBeacons
          = w.discoveredBeacons ++ [beforeUnderscore rest] ∧
        attendanceCalls (scanForBeacons P ⟨.ok (), .ok (), .ok deviceName⟩ net w).2.trace
          = attendanceCalls w.trace ++ [beforeUnderscore rest]) ∧
      ('_' ∉ rest.data → beforeUnderscore rest = rest)) ∧
    ((∀ rest, deviceName ≠ "LECTURER_" ++ rest) →
      scanForBeacons P ⟨.ok (), .ok (), .ok deviceName⟩ net w = (.normal (), w)) := by
  refine ⟨?_, ?_⟩
  · rintro rest rfl
    have key := scanForBeacons_read P net w d hc ("LECTURER_" ++ rest)
    rw [beaconIdOf_prefixed] at key
    simp only at key
    refine ⟨?_, ?_, beforeUnderscore_eq rest⟩
    · intro hin
      rw [key, if_pos hin]
    · intro hnot
      rw [key, if_neg hnot]
      have h := markAttendance_effect P (beforeUnderscore rest) net
        { w with discoveredBeacons := w.discoveredBeacons ++ [beforeUnderscore rest] }
      exact ⟨h.1, h.2.2⟩
  · intro h
    have key := scanForBeacons_read P net w d hc deviceName
    rw [beaconIdOf_other deviceName h] at key
    exact key

/-- C4 witness: the name `LECTURER_42` read during a scan reports the identifier `42`. -/
theorem scanForBeacons_extraction_witness :
    (scanForBeacons samplePlatform ⟨.ok (), .ok (), .ok "LECTURER_42"⟩
        (.responded ⟨true, .ok (.obj [])⟩) scanningWorld).2.discoveredBeacons
      = scanningWorld.discoveredBeacons ++ [beforeUnderscore "42"] ∧
    attendanceCalls (scanForBeacons samplePlatform ⟨.ok (), .ok (), .ok "LECTURER_42"⟩
        (.responded ⟨true, .ok (.obj [])⟩) scanningWorld).2.trace
      = attendanceCalls scanningWorld.trace ++ [beforeUnderscore "42"] :=
  ((scanForBeacons_extraction samplePlatform (.responded ⟨true, .ok (.obj [])⟩) scanningWorld
    ⟨7⟩ rfl "LECTURER_42").1 "42" (by decide)).2.1 (by decide)

/-- C4 counterexample: the name `LECTURER_CS_101` is `LECTURER_` followed by
`CS_101`, yet the identifier added to the discovered set and reported is `CS`,
not `CS_101`. -/
theorem scanForBeacons_second_underscore :
    "LECTURER_CS_101" = "LECTURER_" ++ "CS_101" ∧
    (scanForBeacons samplePlatform ⟨.ok (), .ok (), .ok "LECTURER_CS_101"⟩
        (.responded ⟨true, .ok (.obj [])⟩) scanningWorld).2.discoveredBeacons ≠ ["CS_101"] ∧
    attendanceCalls (scanForBeacons samplePlatform ⟨.ok (), .ok (), .ok "LECTURER_CS_101"⟩
        (.responded ⟨true, .ok (.obj [])⟩) scanningWorld).2.trace ≠ ["CS_101"] ∧
    (scanForBeacons samplePlatform ⟨.ok (), .ok (), .ok "LECTURER_CS_101"⟩
        (.responded ⟨true, .ok (.obj [])⟩) scanningWorld).2.discoveredBeacons = ["CS"] ∧
    attendanceCalls (scanForBeacons samplePlatform ⟨.ok (), .ok (), .ok "LECTURER_CS_101"⟩
        (.responded ⟨true, .ok (.obj [])⟩) scanningWorld).2.trace = ["CS"] := by
  refine ⟨by decide, by decide, by decide, by decide, by decide⟩

/-! ## The dedupe law -/

theorem runTicks_snoc (P : Platform) (pre : List Tick) (t : Tick) (w : World) :
    runTicks P (pre ++ [t]) w = (scanForBeacons P t.gatt t.net (runTicks P pre w)).2 := by
  simp [runTicks, List.foldl_append]

/-- What one reading tick does to the connection, the discovered set and the calls made. -/
theorem tick_step (P : Platform) (t : Tick) (w : World) (d : GattHandle)
    (hc : w.connectedDevice = some d) :
    (scanForBeacons P t.gatt t.net w).2.connectedDevice = some d ∧
    (scanForBeacons P t.gatt t.net w).2.discoveredBeacons =
      w.discoveredBeacons ++
        (match beaconIdOf t.deviceName with
          | none => []
          | some b => if b ∈ w.discoveredBeacons then [] else [b]) ∧
    attendanceCalls (scanForBeacons P t.gatt t.net w).2.trace =
      attendanceCalls w.trace ++
        (match beaconIdOf t.deviceName with
          | none => []
          | some b => if b ∈ w.discoveredBeacons then [] else [b]) := by
  have key := scanForBeacons_read P t.net w d hc t.deviceName
  unfold Tick.gatt
  rw [key]
  cases beaconIdOf t.deviceName with
  | none => simp [hc]
  | some b =>
    by_cases hb : b ∈ w.discoveredBeacons
    · simp [hb, hc]
    · have h := markAttendance_effect P b t.net
        { w with discoveredBeacons := w.discoveredBeacons ++ [b] }
      simp only [hb, if_false]
      exact ⟨h.2.1.trans hc, h.1, h.2.2⟩

/-- Invariant of a run of ticks started with an empty discovered set: the device
stays connected, the discovered set holds exactly the identifiers read so far,
and each of them was reported once. -/
theorem runTicks_invariant (P : Platform) (w : World) (d : GattHandle)
    (hd : w.discoveredBeacons = []) (hc : w.connectedDevice = some d) (ticks : List Tick) :
    (runTicks P ticks w).connectedDevice = some d ∧
    (∀ b, b ∈ (runTicks P ticks w).discoveredBeacons ↔
      ∃ t ∈ ticks, beaconIdOf t.deviceName = some b) ∧
    (∀ b, (attendanceCalls (runTicks P ticks w).trace).count b =
      (attendanceCalls w.trace).count b +
        if ∃ t ∈ ticks, beaconIdOf t.deviceName = some b then 1 else 0) := by
  induction ticks using List.reverseRecOn with
  | nil => simp [runTicks, hd, hc]
  | append_singleton pre t ih =>
    obtain ⟨ihc, ihd, ihn⟩ := ih
    obtain ⟨sc, sd, sn⟩ := tick_step P t (runTicks P pre w) d ihc
    rw [runTicks_snoc]
    refine ⟨sc, ?_, ?_⟩
    · intro b
      rw [sd]
      cases hid : beaconIdOf t.deviceName with
      | none =>
        simp only [List.append_nil, ihd b, List.mem_append, List.mem_singleton]
        constructor
        · rintro ⟨p, hp, hpb⟩
          exact ⟨p, Or.inl hp, hpb⟩
        · rintro ⟨p, hp | rfl, hpb⟩
          · exact ⟨p, hp, hpb⟩
          · rw [hid] at hpb; cases hpb
      | some c =>
        by_cases hcin : c ∈ (runTicks P pre w).discoveredBeacons
        · simp only [hcin, if_true, List.append_nil, ihd b, List.mem_append, List.mem_singleton]
          constructor
          · rintro ⟨p, hp, hpb⟩
            exact ⟨p, Or.inl hp, hpb⟩
          · rintro ⟨p, hp | rfl, hpb⟩
            · exact ⟨p, hp, hpb⟩
            · rw [hid] at hpb
              cases hpb
              exact (ihd b).mp hcin
        · simp only [hcin, if_false, List.mem_append, List.mem_singleton, ihd b]
          constructor
          · rintro (⟨p, hp, hpb⟩ | rfl)
            · exact ⟨p, Or.inl hp, hpb⟩
            · exact ⟨t, Or.inr rfl, hid⟩
          · rintro ⟨p, hp | rfl, hpb⟩
            · exact Or.inl ⟨p, hp, hpb⟩
            · rw [hid] at hpb
              cases hpb
              exact Or.inr rfl
    · intro b
      rw [sn, List.count_append, ihn b]
      have hsplit : (∃ p ∈ pre ++ [t], beaconIdOf p.deviceName = some b) ↔
          ((∃ p ∈ pre, beaconIdOf p.deviceName = some b) ∨ beaconIdOf t.deviceName = some b) := by
        constructor
        · rintro ⟨p, hp, hpb⟩
          rcases List.mem_append.mp hp with hp | hp
          · exact Or.inl ⟨p, hp, hpb⟩
          · rw [List.mem_singleton] at hp
            subst hp
            exact Or.inr hpb
        · rintro (⟨p, hp, hpb⟩ | hpb)
          · exact ⟨p, List.mem_append.mpr (Or.inl hp), hpb⟩
          · exact ⟨t, List.mem_append.mpr (Or.inr (List.mem_singleton.mpr rfl)), hpb⟩
      cases hid : beaconIdOf t.deviceName with
      | none =>
        have : (∃ p ∈ pre ++ [t], beaconIdOf p.deviceName = some b) ↔
            (∃ p ∈ pre, beaconIdOf p.deviceName = some b) := by
          rw [hsplit, hid]; simp
        simp only [List.count_nil, Nat.add_zero, this]
      | some c =>
        by_cases hcin : c ∈ (runTicks P pre w).discoveredBeacons
        · have hex : ∃ p ∈ pre, beaconIdOf p.deviceName = some c := (ihd c).mp hcin
          have : (∃ p ∈ pre ++ [t], beaconIdOf p.deviceName = some b) ↔
              (∃ p ∈ pre, beaconIdOf p.deviceName = some b) := by
            rw [hsplit, hid]
            constructor
            · rintro (h | h)
              · exact h
              · cases h; exact hex
            · exact Or.inl
          simp only [hcin, if_true, List.count_nil, Nat.add_zero, this]
        · have hnex : ¬ ∃ p ∈ pre, beaconIdOf p.deviceName = some c :=
            fun h => hcin ((ihd c).mpr h)
          by_cases hbc : c = b
          · subst hbc
            have : ∃ p ∈ pre ++ [t], beaconIdOf p.deviceName = some c := hsplit.mpr (Or.inr hid)
            simp only [hcin, if_false]
            rw [if_pos this, if_neg hnex]
            simp
          · have : (∃ p ∈ pre ++ [t], beaconIdOf p.deviceName = some b) ↔
                (∃ p ∈ pre, beaconIdOf p.deviceName = some b) := by
              rw [hsplit, hid]
              constructor
              · rintro (h | h)
                · exact h
                · cases h; exact absurd rfl hbc
              · exact Or.inl
            have hbc' : ¬ b = c := fun h => hbc h.symm
            have hcount : List.count b [c] = 0 := by simp [hbc, hbc']
            simp only [hcin, if_false]
            rw [hcount, Nat.add_zero]
            by_cases hp : ∃ p ∈ pre, beaconIdOf p.deviceName = some b
            · rw [if_pos hp, if_pos (this.mpr hp)]
            · rw [if_neg hp, if_neg (fun h => hp (this.mp h))]

/-- C1: in a run of ticks started with an empty discovered set and a device
connected, each tick reading a name, `markAttendance` is called for an
identifier exactly once if some tick read a name yielding it and never
otherwise, whatever the network answers; the call is made by the first such
tick, and a tick whose identifier an earlier tick yielded makes no call. -/
theorem dedupe_law (P : Platform) (w : World) (d : GattHandle)
    (hd : w.discoveredBeacons = []) (hc : w.connectedDevice = some d) (ticks : List Tick) :
    (∀ b, (attendanceCalls (runTicks P ticks w).trace).count b =
      (attendanceCalls w.trace).count b +
        if ∃ t ∈ ticks, beaconIdOf t.deviceName = some b then 1 else 0) ∧
    (∀ pre t post, ticks = pre ++ t :: post →
      attendanceCalls (scanForBeacons P t.gatt t.net (runTicks P pre w)).2.trace =
        attendanceCalls (runTicks P pre w).trace ++
          match beaconIdOf t.deviceName with
          | none => []
          | some b => if ∃ p ∈ pre, beaconIdOf p.deviceName = some b then [] else [b]) := by
  refine ⟨(runTicks_invariant P w d hd hc ticks).2.2, ?_⟩
  intro pre t post _
  obtain ⟨ihc, ihd, -⟩ := runTicks_invariant P w d hd hc pre
  rw [(tick_step P t (runTicks P pre w) d ihc).2.2]
  cases beaconIdOf t.deviceName with
  | none => rfl
  | some b =>
    simp only
    by_cases hb : b ∈ (runTicks P pre w).discoveredBeacons
    · rw [if_pos hb, if_pos ((ihd b).mp hb)]
    · rw [if_neg hb, if_neg (fun h => hb ((ihd b).mpr h))]

/-- C1 witness: the beacon `42` is read twice, its first report fails, and it is reported once. -/
theorem dedupe_law_witness :
    (attendanceCalls (runTicks samplePlatform sampleTicks scanningWorld).trace).count "42" = 1 := by
  have h := (dedupe_law samplePlatform scanningWorld ⟨7⟩ rfl rfl sampleTicks).1 "42"
  rw [if_pos (by decide)] at h
  exact h

/-! ## MAC addresses -/

theorem macRegex_eq :
    macRegex = .seq .bol (.seq (.rep 5 macGroup) (.seq (.rep 2 hexClass) .eol)) := rfl

theorem hexClass_run_nil (i : Nat) : hexClass.run (i, []) = none := rfl

theorem hexClass_run_cons (i : Nat) (c : Char) (rest : List Char) :
    hexClass.run (i, c :: rest) = if isHexDigit c = true then some (i + 1, rest) else none := by
  have h : ([('0', '9'), ('A', 'F'), ('a', 'f')].any
      (fun r : Char × Char => decide (r.1 ≤ c) && decide (c ≤ r.2))) = isHexDigit c := by
    simp only [List.any_cons, List.any_nil, isHexDigit, Bool.or_false]
    cases decide ('0' ≤ c) && decide (c ≤ '9') <;>
      cases decide ('A' ≤ c) && decide (c ≤ 'F') <;>
      cases decide ('a' ≤ c) && decide (c ≤ 'f') <;> rfl
  show (if _ then _ else _) = _
  rw [h]

theorem sepClass_run_nil (i : Nat) : sepClass.run (i, []) = none := rfl

theorem sepClass_run_cons (i : Nat) (c : Char) (rest : List Char) :
    sepClass.run (i, c :: rest) = if isSeparator c = true then some (i + 1, rest) else none := by
  have h : ([(':', ':'), ('-', '-')].any
      (fun r : Char × Char => decide (r.1 ≤ c) && decide (c ≤ r.2))) = isSeparator c := by
    simp only [List.any_cons, List.any_nil, isSeparator, Bool.or_false]
    congr 1
    · rw [Bool.eq_iff_iff]
      simp only [Bool.and_eq_true, decide_eq_true_eq]
      exact ⟨fun ⟨h1, h2⟩ => le_antisymm h2 h1, fun h => by subst h; exact ⟨le_refl _, le_refl _⟩⟩
    · rw [Bool.eq_iff_iff]
      simp only [Bool.and_eq_true, decide_eq_true_eq]
      exact ⟨fun ⟨h1, h2⟩ => le_antisymm h2 h1, fun h => by subst h; exact ⟨le_refl _, le_refl _⟩⟩
  show (if _ then _ else _) = _
  rw [h]

/-- Anchored at `^`, `macRegex` matches nowhere but at index 0. -/
theorem macRegex_run_succ (i : Nat) (cs : List Char) : macRegex.run (i + 1, cs) = none := by
  simp [macRegex, Regex.run]

theorem macRegex_test (s : String) :
    macRegex.test s = (macRegex.run (0, s.data)).isSome := by
  unfold Regex.test
  rw [List.range_succ_eq_map, List.any_cons, List.any_map]
  have : ((List.range s.data.length).any
      ((fun i => (macRegex.run (i, s.data.drop i)).isSome) ∘ Nat.succ)) = false := by
    rw [List.any_eq_false]
    intro i _
    simp [macRegex_run_succ]
  rw [this, Bool.or_false]
  rfl

theorem run_seq (r s : Regex) (i : Nat) (cs : List Char) :
    (Regex.seq r s).run (i, cs) = (r.run (i, cs)).bind s.run := rfl

theorem run_rep (n : Nat) (r : Regex) (i : Nat) (cs : List Char) :
    (Regex.rep n r).run (i, cs) = iterate (fun c => r.run c) n (i, cs) := rfl

theorem run_bol_zero (cs : List Char) : Regex.bol.run (0, cs) = some (0, cs) := rfl

theorem run_eol_nil (i : Nat) : Regex.eol.run (i, []) = some (i, []) := rfl

theorem run_eol_cons (i : Nat) (c : Char) (cs : List Char) : Regex.eol.run (i, c :: cs) = none := rfl

theorem iterate_zero {α : Type} (step : α → Option α) (a : α) : iterate step 0 a = some a := rfl

theorem iterate_succ {α : Type} (step : α → Option α) (n : Nat) (a : α) :
    iterate step (n + 1) a = (step a).bind (iterate step n) := rfl

theorem bind_ite {α β : Type} (p : Prop) [Decidable p] (o : Option α) (f : α → Option β) :
    (if p then o else none).bind f = if p then o.bind f else none := by
  split <;> rfl

theorem isSome_ite {α : Type} (p : Prop) [Decidable p] (o : Option α) :
    (if p then o else none).isSome = (decide p && o.isSome) := by
  by_cases h : p <;> simp [h]

/-- Two hexadecimal digits, `[0-9A-Fa-f]{2}`. -/
theorem hexPair_run (i : Nat) (cs : List Char) :
    (Regex.rep 2 hexClass).run (i, cs) =
      match cs with
      | a :: b :: rest =>
        if isHexDigit a = true ∧ isHexDigit b = true then some (i + 2, rest) else none
      | _ => none := by
  rw [run_rep]
  rcases cs with _ | ⟨a, _ | ⟨b, rest⟩⟩
  · rfl
  · by_cases ha : isHexDigit a = true <;> simp [iterate, hexClass_run_cons, hexClass_run_nil, ha]
  · by_cases ha : isHexDigit a = true <;> by_cases hb : isHexDigit b = true <;>
      simp [iterate, hexClass_run_cons, ha, hb]

/-- One group and its separator. -/
theorem macGroup_run (i : Nat) (cs : List Char) :
    macGroup.run (i, cs) =
      match cs with
      | a :: b :: c :: rest =>
        if isHexDigit a = true ∧ isHexDigit b = true ∧ isSeparator c = true
        then some (i + 3, rest) else none
      | _ => none := by
  unfold macGroup
  rw [run_seq, hexPair_run]
  rcases cs with _ | ⟨a, _ | ⟨b, _ | ⟨c, rest⟩⟩⟩
  · rfl
  · rfl
  · by_cases h : isHexDigit a = true ∧ isHexDigit b = true
    · simp [h, sepClass_run_nil]
    · simp [h]
  · by_cases ha : isHexDigit a = true <;> by_cases hb : isHexDigit b = true <;>
      by_cases hc : isSeparator c = true <;> simp [ha, hb, hc, sepClass_run_cons]

/-- The last group, up to the end of the input. -/
theorem macTail_run (i : Nat) (cs : List Char) :
    (Regex.seq (.rep 2 hexClass) .eol).run (i, cs) =
      match cs with
      | [a, b] => if isHexDigit a = true ∧ isHexDigit b = true then some (i + 2, []) else none
      | _ => none := by
  rw [run_seq, hexPair_run]
  rcases cs with _ | ⟨a, _ | ⟨b, _ | ⟨c, rest⟩⟩⟩
  · rfl
  · rfl
  · by_cases h : isHexDigit a = true ∧ isHexDigit b = true
    · simp [h, run_eol_nil]
    · simp [h]
  · by_cases h : isHexDigit a = true ∧ isHexDigit b = true
    · simp [h, run_eol_cons]
    · simp [h]

theorem macRegex_run_zero (cs : List Char) :
    (macRegex.run (0, cs)).isSome = macReference ⟨cs⟩ := by
  rw [macRegex_eq, run_seq, run_bol_zero, Option.some_bind, run_seq, run_rep]
  simp only [iterate_succ, iterate_zero]
  rcases cs with _ | ⟨c0, _ | ⟨c1, _ | ⟨c2, _ | ⟨c3, _ | ⟨c4, _ | ⟨c5, _ | ⟨c6, _ | ⟨c7, _ | ⟨c8,
    _ | ⟨c9, _ | ⟨c10, _ | ⟨c11, _ | ⟨c12, _ | ⟨c13, _ | ⟨c14, _ | ⟨c15, _ | ⟨c16, _ | ⟨c17, rest⟩⟩⟩⟩⟩⟩⟩⟩⟩⟩⟩⟩⟩⟩⟩⟩⟩⟩
  all_goals
    simp only [macGroup_run, macTail_run, bind_ite, Option.some_bind, Option.none_bind,
      isSome_ite, Option.isSome_some, Option.isSome_none, Bool.and_false, Bool.and_true,
      ite_self]
  all_goals simp [macReference, List.range_succ, Bool.and_assoc]

/-- C5: `validateMacAddress` agrees with the reference reading on every string:
17 characters, six groups of two hexadecimal digits, five separators each a
colon or a hyphen, nothing before or after.  The four strings of the tests, a
mixed-separator string and a string with a trailing newline behave as stated. -/
theorem validateMacAddress_eq_reference :
    (∀ s : String, validateMacAddress s = macReference s) ∧
    validateMacAddress "00:11:22:33:44:55" = true ∧
    validateMacAddress "00-11-22-33-44-55" = true ∧
    validateMacAddress "00:11-22:33-44:55" = true ∧
    validateMacAddress "invalid" = false ∧
    validateMacAddress "00:11:22:33:44" = false ∧
    validateMacAddress "00:11:22:33:44:55\n" = false ∧
    validateMacAddress " 00:11:22:33:44:55" = false := by
  refine ⟨?_, by decide, by decide, by decide, by decide, by decide, by decide, by decide⟩
  intro s
  unfold validateMacAddress
  rw [macRegex_test, macRegex_run_zero]

end AttendanceSys
